import Mathlib

/-!
Verification of the clienttry1 research assistant, centred on the
plan-execution-with-fallback loop (`LLMOrchestrator.execute_research_plan`
in `llm.py`), the planning parse-error handling (`plan_research`), the
capability-discovery error policy (`MCPClient.discover_capabilities` in
`client.py`) and the query pipeline (`ResearchConsole.process_query` in
`console.py`).

Modelling conventions:
* Python dicts that play the role of records become Lean structures with
  `Option` fields; reading an absent key (`step['type']` on a step dict
  without a `type` key) is a `KeyError`, modelled by an `Except.error`.
* JSON-like payload values (tool results, parameters, ...) become the
  inductive `Value`; Python truthiness of such a value is `Value.truthy`.
* `async` calls to the MCP client are pure functions returning
  `Except String Value` (an exception is `.error msg`); each invocation is
  additionally recorded as a `CallRecord`, so "which external calls were
  made, in which order" is observable.
* Wall-clock timestamps (`start_time`, `end_time`) carry no verifiable
  content and are elided from the records.
* A `step.get('fallback')` that is absent or falsy (an empty dict) is
  modelled as `none`; a present, non-empty fallback dict is `some fb`.
-/

/-- JSON-like payload value, the currency of tool/resource/prompt results
and of step parameters. -/
inductive Value where
  | null : Value
  | bool : Bool → Value
  | num : Int → Value
  | str : String → Value
  | arr : List Value → Value
  | obj : List (String × Value) → Value

/-- Python truthiness of a payload value, as used by
`if step_result.get('data'):` in `execute_research_plan`. -/
def Value.truthy : Value → Bool
  | .null => false
  | .bool b => b
  | .num n => n != 0
  | .str s => s != ""
  | .arr xs => !xs.isEmpty
  | .obj fs => !fs.isEmpty

/-- A plan step as produced by the reasoning service: a dict whose keys may
each be absent.  `fallback` is itself a step dict (hence the inductive). -/
inductive PlanStep where
  | mk (type : Option String) (name : Option String) (uri : Option String)
       (parameters : Option Value) (arguments : Option Value)
       (fallback : Option PlanStep)

def PlanStep.type : PlanStep → Option String
  | .mk t _ _ _ _ _ => t

def PlanStep.name : PlanStep → Option String
  | .mk _ n _ _ _ _ => n

def PlanStep.uri : PlanStep → Option String
  | .mk _ _ u _ _ _ => u

def PlanStep.parameters : PlanStep → Option Value
  | .mk _ _ _ p _ _ => p

def PlanStep.arguments : PlanStep → Option Value
  | .mk _ _ _ _ a _ => a

def PlanStep.fallback : PlanStep → Option PlanStep
  | .mk _ _ _ _ _ f => f

/-- The MCP client as seen by the executor: the three capability calls of
`llm.py` (`execute_tool`, `read_resource`, `get_prompt`), each either
returning a payload or raising. -/
structure MCPClient where
  execute_tool : String → Value → Except String Value
  read_resource : String → Except String Value
  get_prompt : String → Value → Except String Value

/-- One external call actually issued to the MCP client, recording which
method fired and with which arguments. -/
inductive CallRecord where
  | toolCall (name : String) (params : Value)
  | resourceCall (uri : String)
  | promptCall (name : String) (args : Value)

/-- Step status values of `llm.py` (`'pending'`, `'completed'`, `'failed'`,
`'completed_with_fallback'`). -/
inductive Status where
  | pending
  | completed
  | failed
  | completed_with_fallback
deriving DecidableEq

/-- The `step_result` dict built per step by `execute_research_plan`
(timestamps elided). -/
structure StepResult where
  step : PlanStep
  status : Status
  data : Option Value
  error : Option String
  fallback_data : Option Value
  fallback_error : Option String

/-- The `results` dict of `execute_research_plan`: ordered step results,
ordered data payloads, and the two metadata counters. -/
structure Report where
  steps : List StepResult
  data : List Value
  success_count : Nat
  failure_count : Nat

/-- The `try` body of the per-step dispatch in `execute_research_plan`
(llm.py lines 119-139): three-way dispatch on `step['type']`.  Returns the
recorded `data` (`some` when a branch assigned `step_result['data']`,
`none` on the if/elif fall-through for an unrecognized type) or the raised
exception, together with the client calls issued. -/
def dispatch_step (client : MCPClient) (step : PlanStep) :
    Except String (Option Value) × List CallRecord :=
  match step.type with
  | none => (.error "KeyError: type", [])
  | some t =>
    if t = "tool" then
      match step.name, step.parameters with
      | none, _ => (.error "KeyError: name", [])
      | some _, none => (.error "KeyError: parameters", [])
      | some n, some p =>
        match client.execute_tool n p with
        | .ok v => (.ok (some v), [.toolCall n p])
        | .error e => (.error e, [.toolCall n p])
    else if t = "resource" then
      match step.uri with
      | none => (.error "KeyError: uri", [])
      | some u =>
        match client.read_resource u with
        | .ok v => (.ok (some v), [.resourceCall u])
        | .error e => (.error e, [.resourceCall u])
    else if t = "prompt" then
      match step.name, step.arguments with
      | none, _ => (.error "KeyError: name", [])
      | some _, none => (.error "KeyError: arguments", [])
      | some n, some a =>
        match client.get_prompt n a with
        | .ok v => (.ok (some v), [.promptCall n a])
        | .error e => (.error e, [.promptCall n a])
    else
      (.ok none, [])

/-- `LLMOrchestrator.execute_fallback` (llm.py lines 219-241): same
three-way dispatch on `fallback['type']`, but with an explicit `else`
raising `ValueError(f"Unknown fallback type: ...")`. -/
def execute_fallback (client : MCPClient) (fb : PlanStep) :
    Except String Value × List CallRecord :=
  match fb.type with
  | none => (.error "KeyError: type", [])
  | some t =>
    if t = "tool" then
      match fb.name, fb.parameters with
      | none, _ => (.error "KeyError: name", [])
      | some _, none => (.error "KeyError: parameters", [])
      | some n, some p =>
        match client.execute_tool n p with
        | .ok v => (.ok v, [.toolCall n p])
        | .error e => (.error e, [.toolCall n p])
    else if t = "resource" then
      match fb.uri with
      | none => (.error "KeyError: uri", [])
      | some u =>
        match client.read_resource u with
        | .ok v => (.ok v, [.resourceCall u])
        | .error e => (.error e, [.resourceCall u])
    else if t = "prompt" then
      match fb.name, fb.arguments with
      | none, _ => (.error "KeyError: name", [])
      | some _, none => (.error "KeyError: arguments", [])
      | some n, some a =>
        match client.get_prompt n a with
        | .ok v => (.ok v, [.promptCall n a])
        | .error e => (.error e, [.promptCall n a])
    else
      (.error ("Unknown fallback type: " ++ t), [])

/-- One iteration of the loop body of `execute_research_plan` (llm.py lines
113-160): dispatch, then the `except` branch with the optional single-level
fallback.  Returns the finished `step_result`, whether `success_count`
(true) or `failure_count` (false) was incremented, and the client calls
issued. -/
def execute_step (client : MCPClient) (step : PlanStep) :
    StepResult × Bool × List CallRecord :=
  match dispatch_step client step with
  | (.ok dataOpt, tr) =>
    ({ step := step, status := .completed, data := dataOpt,
       error := none, fallback_data := none, fallback_error := none },
     true, tr)
  | (.error e, tr) =>
    match step.fallback with
    | none =>
      ({ step := step, status := .failed, data := none, error := some e,
         fallback_data := none, fallback_error := none },
       false, tr)
    | some fb =>
      match execute_fallback client fb with
      | (.ok v, tr2) =>
        ({ step := step, status := .completed_with_fallback, data := none,
           error := some e, fallback_data := some v, fallback_error := none },
         false, tr ++ tr2)
      | (.error fe, tr2) =>
        ({ step := step, status := .failed, data := none, error := some e,
           fallback_data := none, fallback_error := some fe },
         false, tr ++ tr2)

/-- The payloads a finished step contributes to `results['data']`:
`if step_result.get('data'): results['data'].append(step_result['data'])`
(llm.py lines 163-164) — present AND truthy primary data only. -/
def data_items (sr : StepResult) : List Value :=
  match sr.data with
  | some d => if d.truthy then [d] else []
  | none => []

/-- The loop of `execute_research_plan` over `plan.get('steps', [])`,
accumulating the report. -/
def run_plan (client : MCPClient) : List PlanStep → Report
  | [] => { steps := [], data := [], success_count := 0, failure_count := 0 }
  | step :: rest =>
    let sr := (execute_step client step).1
    let ok := (execute_step client step).2.1
    let r := run_plan client rest
    { steps := sr :: r.steps,
      data := data_items sr ++ r.data,
      success_count := (if ok then 1 else 0) + r.success_count,
      failure_count := (if ok then 0 else 1) + r.failure_count }

/-- The plan dict consumed by `execute_research_plan`: it may or may not
have a `steps` key; the `{error, raw_response}` payload produced by a
planning parse failure is the same shape with `steps` absent. -/
structure Plan where
  steps : Option (List PlanStep)
  error : Option String
  raw_response : Option String

/-- `LLMOrchestrator.execute_research_plan` (llm.py lines 99-171):
iterates `plan.get('steps', [])` and aggregates the report. -/
def execute_research_plan (client : MCPClient) (plan : Plan) : Report :=
  run_plan client (plan.steps.getD [])

/-- The reply-handling tail of `LLMOrchestrator.plan_research` (llm.py
lines 81-93), abstracted over the reasoning-service reply: `content` is the
list of reply blocks (their text), `parse` is `json.loads` followed by
reading the plan shape (`none` on `JSONDecodeError`). -/
def plan_research (parse : String → Option Plan) (content : List String) :
    Plan :=
  match content with
  | [] => { steps := none, error := some "No response content available",
            raw_response := none }
  | text :: _ =>
    match parse text with
    | some p => p
    | none => { steps := none, error := some "Invalid JSON response",
                raw_response := some text }

/-- The planning-to-execution chaining of `ResearchConsole.process_query`
(console.py lines 84-87): the plan returned by `plan_research` is handed to
`execute_research_plan` directly, with no check for a planning error. -/
def process_query (parse : String → Option Plan) (content : List String)
    (client : MCPClient) : Report :=
  execute_research_plan client (plan_research parse content)

/-- The three discovery calls of `MCPClient.discover_capabilities`
(client.py lines 29-82), each either returning the mapped capability list
or raising. -/
structure MCPSession where
  list_tools : Except String (List Value)
  list_resources : Except String (List Value)
  list_prompts : Except String (List Value)

/-- The `self.capabilities` dict of `MCPClient`: three capability lists,
all empty on a freshly constructed client. -/
structure Capabilities where
  tools : List Value
  resources : List Value
  prompts : List Value

/-- `MCPClient.discover_capabilities` (client.py lines 29-82): raises if no
session; tool listing failures propagate out of the outer `try`;
resource/prompt listing failures are swallowed by inner `try`s, leaving
`self.capabilities` (`caps`, the state before the call) untouched for that
kind. -/
def discover_capabilities (session : Option MCPSession)
    (caps : Capabilities) : Except String Capabilities :=
  match session with
  | none => .error "Client not initialized"
  | some s =>
    match s.list_tools with
    | .error e => .error e
    | .ok ts =>
      let caps1 : Capabilities := { caps with tools := ts }
      let caps2 : Capabilities :=
        match s.list_resources with
        | .ok rs => { caps1 with resources := rs }
        | .error _ => caps1
      let caps3 : Capabilities :=
        match s.list_prompts with
        | .ok ps => { caps2 with prompts := ps }
        | .error _ => caps2
      .ok caps3

/-! Concrete test fixtures, mirroring the worked example of the spec: a
client where `callTool("search", ...)` always succeeds and
`callTool("bad_tool", ...)` always fails. -/

/-- A client whose `search` tool succeeds, whose other tools fail, and
whose resource/prompt reads succeed. -/
def demoClient : MCPClient where
  execute_tool := fun name _params =>
    if name = "search" then .ok (.obj [("result", .str "found")])
    else .error ("Tool not found: " ++ name)
  read_resource := fun u => .ok (.str ("content of " ++ u))
  get_prompt := fun n _args => .ok (.str ("prompt " ++ n))

/-- The plan step `{type: Tool, name: "search", parameters: {q: ...}}`. -/
def searchStep (q : String) : PlanStep :=
  .mk (some "tool") (some "search") none (some (.obj [("q", .str q)]))
    none none

/-- The plan step `{type: Tool, name: "bad_tool", parameters: {},
fallback: {type: Tool, name: "search", parameters: {q: "y"}}}`. -/
def badStep : PlanStep :=
  .mk (some "tool") (some "bad_tool") none (some (.obj [("x", .str "1")]))
    none (some (searchStep "y"))

/-- A step whose `type` is present but none of tool/resource/prompt. -/
def unknownStep : PlanStep :=
  .mk (some "mystery") none none none none none

/-- A `search` step that also declares a fallback (to observe that the
fallback is not attempted on primary success). -/
def searchStepWithFb : PlanStep :=
  .mk (some "tool") (some "search") none (some (.obj [("q", .str "x")]))
    none (some (searchStep "y"))

/-- A parse function that always fails, standing for `json.loads` on a
non-JSON reply. -/
def parseAlwaysFails : String → Option Plan := fun _ => none

/-! Helper lemmas about the execution loop. -/

/-- The steps sequence of a run is the input steps mapped through the
per-step executor, in order. -/
theorem run_plan_steps (client : MCPClient) (l : List PlanStep) :
    (run_plan client l).steps = l.map (fun s => (execute_step client s).1) := by
  induction l with
  | nil => rfl
  | cons s rest ih => simp [run_plan, ih]

/-- Counter bookkeeping: every step increments exactly one counter. -/
theorem run_plan_counts (client : MCPClient) (l : List PlanStep) :
    (run_plan client l).success_count + (run_plan client l).failure_count
      = l.length := by
  induction l with
  | nil => rfl
  | cons s rest ih =>
    simp only [run_plan, List.length_cons]
    cases hok : (execute_step client s).2.1 <;> simp <;> omega

/-- The data sequence of a run is exactly the concatenation of each step
result's contributed data items. -/
theorem run_plan_data (client : MCPClient) (l : List PlanStep) :
    (run_plan client l).data
      = ((run_plan client l).steps.map data_items).flatten := by
  induction l with
  | nil => rfl
  | cons s rest ih => simp [run_plan, ih]

/-- C1: for every plan with N steps, after `execute_research_plan` completes
the report's steps sequence has exactly N entries and
`success_count + failure_count = N`. -/
theorem step_count_invariant (client : MCPClient) (plan : Plan)
    (l : List PlanStep) (h : plan.steps = some l) :
    (execute_research_plan client plan).steps.length = l.length ∧
    (execute_research_plan client plan).success_count
      + (execute_research_plan client plan).failure_count = l.length := by
  have hs : plan.steps.getD [] = l := by rw [h]; rfl
  unfold execute_research_plan
  rw [hs]
  exact ⟨by rw [run_plan_steps]; simp, run_plan_counts client l⟩

/-- Closed instance of the step-count invariant on the two-step demo
plan. -/
theorem step_count_invariant_witness :
    (execute_research_plan demoClient
      { steps := some [searchStep "x", badStep], error := none,
        raw_response := none }).steps.length = 2 ∧
    (execute_research_plan demoClient
      { steps := some [searchStep "x", badStep], error := none,
        raw_response := none }).success_count
      + (execute_research_plan demoClient
          { steps := some [searchStep "x", badStep], error := none,
            raw_response := none }).failure_count = 2 :=
  step_count_invariant demoClient
    { steps := some [searchStep "x", badStep], error := none,
      raw_response := none } [searchStep "x", badStep] rfl

/-- C2 (divergence exhibit): a step whose `type` is present but
unrecognized falls through the `if/elif` chain of the primary dispatch with
no `else`, so the code marks it `completed` with no error and increments
`success_count` — it is NOT recorded as a failed step result. -/
theorem unknown_type_counted_as_success :
    execute_research_plan demoClient
      { steps := some [unknownStep], error := none, raw_response := none } =
      { steps := [{ step := unknownStep, status := .completed, data := none,
                    error := none, fallback_data := none,
                    fallback_error := none }],
        data := [], success_count := 1, failure_count := 0 } := rfl

/-- C8: a reasoning-service reply whose text fails to parse during planning
makes `plan_research` return the structured payload
`{error: "Invalid JSON response", raw_response: <original text>}` rather
than raising. -/
theorem plan_parse_failure (parse : String → Option Plan) (text : String)
    (rest : List String) (hp : parse text = none) :
    plan_research parse (text :: rest) =
      { steps := none, error := some "Invalid JSON response",
        raw_response := some text } := by
  simp [plan_research, hp]

/-- Closed instance of the planning parse-failure behaviour. -/
theorem plan_parse_failure_witness :
    plan_research parseAlwaysFails ["not json" ] =
      { steps := none, error := some "Invalid JSON response",
        raw_response := some "not json" } :=
  plan_parse_failure parseAlwaysFails "not json" [] rfl

/-- C10: a plan value lacking a `steps` key — including the
`{error, raw_response}` payload of a planning parse failure — makes
`execute_research_plan` return the empty report without raising, and
`process_query` hands such a plan to execution unchecked, yielding that
same empty report. -/
theorem missing_steps_yields_empty_report (client : MCPClient) (plan : Plan)
    (h : plan.steps = none) (parse : String → Option Plan) (text : String)
    (rest : List String) (hp : parse text = none) :
    execute_research_plan client plan =
      { steps := [], data := [], success_count := 0, failure_count := 0 } ∧
    process_query parse (text :: rest) client =
      { steps := [], data := [], success_count := 0, failure_count := 0 } := by
  constructor
  · unfold execute_research_plan
    rw [h]
    rfl
  · simp [process_query, plan_research, hp, execute_research_plan, run_plan]

/-- Closed instance of the missing-steps behaviour. -/
theorem missing_steps_yields_empty_report_witness :
    execute_research_plan demoClient
      { steps := none, error := none, raw_response := none } =
      { steps := [], data := [], success_count := 0, failure_count := 0 } ∧
    process_query parseAlwaysFails ["oops" ] demoClient =
      { steps := [], data := [], success_count := 0, failure_count := 0 } :=
  missing_steps_yields_empty_report demoClient
    { steps := none, error := none, raw_response := none } rfl
    parseAlwaysFails "oops" [] rfl

/-- C4: a step whose dispatched call fails and whose fallback dispatch
succeeds yields status `completed_with_fallback` with both the primary
error and the fallback data populated, and counts toward `failure_count`,
not `success_count`. -/
theorem fallback_recovery (client : MCPClient) (step : PlanStep)
    (e : String) (tr : List CallRecord) (fb : PlanStep) (v : Value)
    (tr2 : List CallRecord)
    (h1 : dispatch_step client step = (.error e, tr))
    (h2 : step.fallback = some fb)
    (h3 : execute_fallback client fb = (.ok v, tr2)) :
    execute_research_plan client
        { steps := some [step], error := none, raw_response := none } =
      { steps := [{ step := step, status := .completed_with_fallback,
                    data := none, error := some e, fallback_data := some v,
                    fallback_error := none }],
        data := [], success_count := 0, failure_count := 1 } := by
  simp [execute_research_plan, run_plan, execute_step, data_items, h1, h2, h3]

/-- Closed instance of fallback recovery: `bad_tool` fails, the `search`
fallback succeeds. -/
theorem fallback_recovery_witness :
    execute_research_plan demoClient
        { steps := some [badStep], error := none, raw_response := none } =
      { steps := [{ step := badStep, status := .completed_with_fallback,
                    data := none, error := some "Tool not found: bad_tool",
                    fallback_data := some (.obj [("result", .str "found")]),
                    fallback_error := none }],
        data := [], success_count := 0, failure_count := 1 } :=
  fallback_recovery demoClient badStep "Tool not found: bad_tool"
    [.toolCall "bad_tool" (.obj [("x", .str "1")])] (searchStep "y")
    (.obj [("result", .str "found")])
    [.toolCall "search" (.obj [("q", .str "y")])] rfl rfl rfl

/-- C5: a step whose dispatched call fails and whose fallback dispatch also
fails absorbs the fallback failure: the step result keeps status `failed`
and has both the primary error and the fallback error populated. -/
theorem fallback_failure_absorbed (client : MCPClient) (step : PlanStep)
    (e : String) (tr : List CallRecord) (fb : PlanStep) (fe : String)
    (tr2 : List CallRecord)
    (h1 : dispatch_step client step = (.error e, tr))
    (h2 : step.fallback = some fb)
    (h3 : execute_fallback client fb = (.error fe, tr2)) :
    execute_research_plan client
        { steps := some [step], error := none, raw_response := none } =
      { steps := [{ step := step, status := .failed, data := none,
                    error := some e, fallback_data := none,
                    fallback_error := some fe }],
        data := [], success_count := 0, failure_count := 1 } := by
  simp [execute_research_plan, run_plan, execute_step, data_items, h1, h2, h3]

/-- Closed instance of fallback failure absorption: a step and fallback
that both name `bad_tool`. -/
theorem fallback_failure_absorbed_witness :
    execute_research_plan demoClient
        { steps := some [PlanStep.mk (some "tool") (some "bad_tool") none
            (some .null) none
            (some (.mk (some "tool") (some "bad_tool") none (some .null)
              none none))], error := none, raw_response := none } =
      { steps := [{ step := PlanStep.mk (some "tool") (some "bad_tool") none
                      (some .null) none
                      (some (.mk (some "tool") (some "bad_tool") none
                        (some .null) none none)),
                    status := .failed, data := none,
                    error := some "Tool not found: bad_tool",
                    fallback_data := none,
                    fallback_error := some "Tool not found: bad_tool" }],
        data := [], success_count := 0, failure_count := 1 } :=
  fallback_failure_absorbed demoClient
    (.mk (some "tool") (some "bad_tool") none (some .null) none
      (some (.mk (some "tool") (some "bad_tool") none (some .null) none
        none)))
    "Tool not found: bad_tool" [.toolCall "bad_tool" .null]
    (.mk (some "tool") (some "bad_tool") none (some .null) none none)
    "Tool not found: bad_tool" [.toolCall "bad_tool" .null] rfl rfl rfl

/-- C6: a step whose dispatched call succeeds yields status `completed`
with `data` equal to the call's return value and counts as a success; the
calls issued are exactly the dispatch's own (no fallback call is made)
even though the step declares a fallback. -/
theorem primary_success_no_fallback (client : MCPClient) (step : PlanStep)
    (v : Value) (tr : List CallRecord) (fb : PlanStep)
    (h1 : dispatch_step client step = (.ok (some v), tr))
    (_h2 : step.fallback = some fb) :
    execute_step client step =
      ({ step := step, status := .completed, data := some v, error := none,
         fallback_data := none, fallback_error := none }, true, tr) ∧
    (execute_research_plan client
        { steps := some [step], error := none,
          raw_response := none }).success_count = 1 ∧
    (execute_research_plan client
        { steps := some [step], error := none,
          raw_response := none }).failure_count = 0 := by
  refine ⟨?_, ?_, ?_⟩ <;>
    simp [execute_research_plan, run_plan, execute_step, data_items, h1]

/-- Closed instance of primary success with a declared (unattempted)
fallback. -/
theorem primary_success_no_fallback_witness :
    execute_step demoClient searchStepWithFb =
      ({ step := searchStepWithFb, status := .completed,
         data := some (.obj [("result", .str "found")]), error := none,
         fallback_data := none, fallback_error := none }, true,
       [.toolCall "search" (.obj [("q", .str "x")])]) ∧
    (execute_research_plan demoClient
        { steps := some [searchStepWithFb], error := none,
          raw_response := none }).success_count = 1 ∧
    (execute_research_plan demoClient
        { steps := some [searchStepWithFb], error := none,
          raw_response := none }).failure_count = 0 :=
  primary_success_no_fallback demoClient searchStepWithFb
    (.obj [("result", .str "found")])
    [.toolCall "search" (.obj [("q", .str "x")])] (searchStep "y") rfl rfl

/-- C7: the executor processes and records steps in exactly the input
order, and the result entry for step i is the i-th step's own outcome,
independent of every other step (so no earlier failure prevents a later
step from being dispatched). -/
theorem exec_order (client : MCPClient) (l : List PlanStep) (i : Nat)
    (hi : i < l.length) :
    (execute_research_plan client
        { steps := some l, error := none,
          raw_response := none }).steps.length = l.length ∧
    (execute_research_plan client
        { steps := some l, error := none, raw_response := none }).steps[i]?
      = some (execute_step client l[i]).1 := by
  have hs : (execute_research_plan client
      { steps := some l, error := none, raw_response := none }).steps
      = l.map (fun s => (execute_step client s).1) := run_plan_steps client l
  constructor
  · rw [hs]
    simp
  · rw [hs, List.getElem?_map, List.getElem?_eq_getElem hi]
    rfl

/-- Closed instance of ordered execution: in a three-step plan whose first
step succeeds, second fails into a fallback and third has an unknown type,
entry 1 of the report is exactly the second step's own outcome. -/
theorem exec_order_witness :
    (execute_research_plan demoClient
        { steps := some [searchStep "x", badStep, unknownStep],
          error := none, raw_response := none }).steps[1]?
      = some (execute_step demoClient badStep).1 := by
  have h := exec_order demoClient [searchStep "x", badStep, unknownStep] 1
    (by decide)
  exact h.2

/-- On a step result whose status is `completed_with_fallback` the primary
`data` field is never set (the recovered payload lives in
`fallback_data`). -/
theorem execute_step_fallback_data_none (client : MCPClient)
    (s : PlanStep) :
    (execute_step client s).1.status = .completed_with_fallback →
    (execute_step client s).1.data = none := by
  rcases h : dispatch_step client s with ⟨res, tr⟩
  cases res with
  | ok d => simp [execute_step, h]
  | error e =>
    cases hf : s.fallback with
    | none => simp [execute_step, h, hf]
    | some fb =>
      rcases hfb : execute_fallback client fb with ⟨fres, tr2⟩
      cases fres <;> simp [execute_step, h, hf, hfb]

/-- C3 (counterexample): on the spec's own worked example — `search`
succeeds, `bad_tool` fails and recovers through a `search` fallback — the
report's data sequence has length 1, not 2: the fallback's payload is not
appended to `data`. -/
theorem fallback_data_not_appended_cex :
    ((execute_research_plan demoClient
        { steps := some [searchStep "x", badStep], error := none,
          raw_response := none }).steps.map StepResult.status
      = [.completed, .completed_with_fallback]) ∧
    (execute_research_plan demoClient
        { steps := some [searchStep "x", badStep], error := none,
          raw_response := none }).data.length = 1 := by
  exact ⟨rfl, rfl⟩

/-- C3 (amended): the report's data sequence consists exactly of the
present-and-truthy primary `data` payloads of the recorded steps, in
order; a step recovered via fallback contributes nothing to it. -/
theorem data_from_primary_only (client : MCPClient) (plan : Plan) :
    (execute_research_plan client plan).data
      = ((execute_research_plan client plan).steps.map data_items).flatten ∧
    ∀ sr ∈ (execute_research_plan client plan).steps,
      sr.status = .completed_with_fallback → data_items sr = [] := by
  constructor
  · exact run_plan_data client (plan.steps.getD [])
  · intro sr hsr hst
    rw [show (execute_research_plan client plan).steps
          = (plan.steps.getD []).map (fun s => (execute_step client s).1)
        from run_plan_steps client (plan.steps.getD [])] at hsr
    obtain ⟨s, _, rfl⟩ := List.mem_map.1 hsr
    have hd := execute_step_fallback_data_none client s hst
    simp [data_items, hd]

/-- Closed instance of the amended data policy: the fallback-recovered
step of the worked example contributes nothing to the data sequence. -/
theorem data_from_primary_only_witness :
    data_items
      { step := badStep, status := .completed_with_fallback, data := none,
        error := some "Tool not found: bad_tool",
        fallback_data := some (.obj [("result", .str "found")]),
        fallback_error := none } = [] := by
  refine (data_from_primary_only demoClient
    { steps := some [searchStep "x", badStep], error := none,
      raw_response := none }).2 _ ?_ rfl
  have e : (execute_research_plan demoClient
      { steps := some [searchStep "x", badStep], error := none,
        raw_response := none }).steps
      = [{ step := searchStep "x", status := .completed,
           data := some (.obj [("result", .str "found")]), error := none,
           fallback_data := none, fallback_error := none },
         { step := badStep, status := .completed_with_fallback,
           data := none, error := some "Tool not found: bad_tool",
           fallback_data := some (.obj [("result", .str "found")]),
           fallback_error := none }] := rfl
  rw [e]
  simp

/-- C9 (counterexample): when resource listing fails on a client whose
previous discovery had found a resource, the resources list is left at its
stale previous value, not emptied. -/
theorem discovery_stale_resources_cex :
    (discover_capabilities
        (some { list_tools := .ok [], list_resources := .error "unsupported",
                list_prompts := .ok [] })
        { tools := [], resources := [.str "stale"], prompts := [] }
      = .ok { tools := [], resources := [.str "stale"], prompts := [] }) ∧
    ¬ (discover_capabilities
        (some { list_tools := .ok [], list_resources := .error "unsupported",
                list_prompts := .ok [] })
        { tools := [], resources := [.str "stale"], prompts := [] }
      = .ok { tools := [], resources := [], prompts := [] }) := by
  refine ⟨rfl, fun h => ?_⟩
  simp [discover_capabilities] at h

/-- C9 (amended): a tool-listing failure propagates out of
`discover_capabilities`; when tool listing succeeds, a resource-listing or
prompt-listing failure does not propagate and leaves the corresponding
capability list unchanged from its value before the call (hence empty on a
freshly constructed client), while a successful listing replaces it. -/
theorem discovery_error_policy (sess : MCPSession) (caps : Capabilities) :
    (∀ e, sess.list_tools = .error e →
      discover_capabilities (some sess) caps = .error e) ∧
    (∀ ts, sess.list_tools = .ok ts →
      discover_capabilities (some sess) caps = .ok
        { tools := ts,
          resources := match sess.list_resources with
            | .ok rs => rs
            | .error _ => caps.resources,
          prompts := match sess.list_prompts with
            | .ok ps => ps
            | .error _ => caps.prompts }) := by
  constructor
  · intro e he
    simp [discover_capabilities, he]
  · intro ts ht
    simp only [discover_capabilities, ht]
    cases sess.list_resources <;> cases sess.list_prompts <;> rfl

/-- Closed instance of the discovery error policy: a tool-listing failure
propagates. -/
theorem discovery_error_policy_witness :
    discover_capabilities
        (some { list_tools := .error "boom", list_resources := .ok [],
                list_prompts := .ok [] })
        { tools := [], resources := [], prompts := [] } = .error "boom" :=
  (discovery_error_policy
      { list_tools := .error "boom", list_resources := .ok [],
        list_prompts := .ok [] }
      { tools := [], resources := [], prompts := [] }).1 "boom" rfl
